import Mathlib

/-!
# Verification of backtest/ml/trainModel.py

A shallow embedding of the BTC 15-minute ML training pipeline
(`backtest/ml/trainModel.py`) together with proofs about its behaviour.

The script is a linear pipeline: load a JSON dataset, z-score normalize the
features with statistics fitted on the training split, train an XGBoost
classifier with early stopping, evaluate on the test split, run 5-fold
cross-validation, and export JSON artifacts.

Modelling conventions:
* Real-number data (features, labels, predicted probabilities) is embedded as
  `ℚ`; the square root arising in the standard deviation is taken in `ℝ`.
* Binary labels and binary predictions are embedded as `Bool`
  (`true` = class 1 "UP", `false` = class 0 "DOWN").
* The calls into xgboost / scikit-learn are embedded by their documented
  semantics where a claim depends on them (metric formulas, `StandardScaler`
  statistics) and are otherwise treated as oracles supplied by a `World`
  structure (model fitting, tree dumping), since their internals are outside
  this repository.
-/

namespace TrainModel

/-! ## Test-set samples and the metrics of `evaluate_model`

`evaluate_model(model, X_test, y_test)` first computes
`y_pred = model.predict(X_test)` and `y_proba = model.predict_proba(X_test)[:, 1]`
and then derives every metric from the triples `(y_test[i], y_pred[i], y_proba[i])`.
We embed one such triple as a `Sample`. -/

/-- One test-set row as seen by `evaluate_model`: the binary ground-truth label
`y_test[i]`, the binary model prediction `y_pred[i]`, and the predicted
probability of class 1, `y_proba[i]`. -/
structure Sample where
  label : Bool
  pred : Bool
  proba : ℚ
deriving DecidableEq, Repr

/-- True positives of the 2x2 confusion matrix `cm[1][1]`. -/
def countTP (s : List Sample) : ℕ :=
  (s.filter (fun x => x.label && x.pred)).length

/-- False positives `cm[0][1]`. -/
def countFP (s : List Sample) : ℕ :=
  (s.filter (fun x => !x.label && x.pred)).length

/-- True negatives `cm[0][0]`. -/
def countTN (s : List Sample) : ℕ :=
  (s.filter (fun x => !x.label && !x.pred)).length

/-- False negatives `cm[1][0]`. -/
def countFN (s : List Sample) : ℕ :=
  (s.filter (fun x => x.label && !x.pred)).length

/-- Embeds `accuracy_score(y_test, y_pred)`: fraction of samples where the
prediction equals the label. -/
def accuracyScore (s : List Sample) : ℚ :=
  ((s.filter (fun x => x.pred == x.label)).length : ℚ) / (s.length : ℚ)

/-- Embeds `precision_score(y_test, y_pred, zero_division=0)`:
`TP / (TP + FP)`, and `0` when the denominator is zero. -/
def precisionScore (s : List Sample) : ℚ :=
  if countTP s + countFP s = 0 then 0
  else (countTP s : ℚ) / ((countTP s + countFP s : ℕ) : ℚ)

/-- Embeds `recall_score(y_test, y_pred, zero_division=0)`:
`TP / (TP + FN)`, and `0` when the denominator is zero. -/
def recallScore (s : List Sample) : ℚ :=
  if countTP s + countFN s = 0 then 0
  else (countTP s : ℚ) / ((countTP s + countFN s : ℕ) : ℚ)

/-- Embeds `f1_score(y_test, y_pred, zero_division=0)`:
`2·TP / (2·TP + FP + FN)`, and `0` when the denominator is zero
(the harmonic mean of precision and recall wherever that is defined). -/
def f1Score (s : List Sample) : ℚ :=
  if 2 * countTP s + countFP s + countFN s = 0 then 0
  else ((2 * countTP s : ℕ) : ℚ) / ((2 * countTP s + countFP s + countFN s : ℕ) : ℚ)

/-- The probability scores of the positive-labelled samples. -/
def posScores (s : List Sample) : List ℚ :=
  (s.filter (fun x => x.label)).map (fun x => x.proba)

/-- The probability scores of the negative-labelled samples. -/
def negScores (s : List Sample) : List ℚ :=
  (s.filter (fun x => !x.label)).map (fun x => x.proba)

/-- Contribution of one positive/negative score pair to the AUC:
`1` if the positive sample is ranked strictly higher, `1/2` on a tie,
`0` otherwise. -/
def aucPair (p q : ℚ) : ℚ :=
  if q < p then 1 else if p = q then 1 / 2 else 0

/-- Embeds `roc_auc_score(y_test, y_proba)` via its Mann–Whitney form: the average
over all positive/negative pairs of `aucPair`.  scikit-learn's trapezoidal
ROC AUC coincides with this statistic; it is defined (the call succeeds)
exactly when both classes are present in `y_test`. -/
def aucScore (s : List Sample) : ℚ :=
  ((posScores s).map (fun p => ((negScores s).map (fun q => aucPair p q)).sum)).sum
    / (((posScores s).length : ℚ) * ((negScores s).length : ℚ))

/-! ## The simulated-trading loop of `evaluate_model`

For each `threshold` in the fixed list, the script forms
`prob_max = np.maximum(y_proba, 1 - y_proba)`, selects the samples with
`prob_max >= threshold`, and records `trades` (their count) and
`wins` (how many of them are predicted correctly). -/

/-- Computes `np.maximum(p, 1 - p)` for one probability. -/
def probMax (p : ℚ) : ℚ := max p (1 - p)

/-- The fixed threshold list of the simulated-trading loop. -/
def tradingThresholds : List ℚ :=
  [0.55, 0.60, 0.65, 0.70, 0.75, 0.80, 0.85, 0.90]

/-- Whether a sample is selected ("traded") at a confidence threshold:
`max(p, 1-p) >= threshold`. -/
def selectedAt (t : ℚ) (x : Sample) : Bool :=
  t ≤ probMax x.proba

/-- The `trades` count recorded at a threshold: the number of selected test samples. -/
def tradesAt (s : List Sample) (t : ℚ) : ℕ :=
  (s.filter (selectedAt t)).length

/-- The `wins` count recorded at a threshold: among the selected samples, those with
`y_pred == y_test`. -/
def winsAt (s : List Sample) (t : ℚ) : ℕ :=
  ((s.filter (selectedAt t)).filter (fun x => x.pred == x.label)).length

/-! ## The class weight of `train_xgboost`

```
n_pos = y_train.sum()
n_neg = len(y_train) - n_pos
scale_pos_weight = n_neg / n_pos if n_pos > 0 else 1.0
```
The labels arrive as a float vector; on binary data `y_train.sum()` is the
count of positive labels. -/

/-- Computes `y_train.sum()` for the float label vector. -/
def nPos (y : List ℚ) : ℚ := y.sum

/-- Computes `len(y_train) - n_pos`. -/
def nNeg (y : List ℚ) : ℚ := (y.length : ℚ) - nPos y

/-- Computes `scale_pos_weight = n_neg / n_pos if n_pos > 0 else 1.0`. -/
def scale_pos_weight (y : List ℚ) : ℚ :=
  if 0 < nPos y then nNeg y / nPos y else 1.0

/-- The number of entries equal to `1` in a float label vector. -/
def countOnes (y : List ℚ) : ℕ := (y.filter (fun v => v == 1)).length

/-- The number of entries equal to `0` in a float label vector. -/
def countZeros (y : List ℚ) : ℕ := (y.filter (fun v => v == 0)).length

/-- A label vector is binary when every entry is `0` or `1`. -/
def BinaryLabels (y : List ℚ) : Prop := ∀ v ∈ y, v = 0 ∨ v = 1

end TrainModel

example : TrainModel.countTP [⟨true, true, 0.7⟩, ⟨false, true, 0.6⟩] = 1 := by decide

example : TrainModel.accuracyScore [⟨true, true, 0.7⟩, ⟨false, true, 0.6⟩] = 1 / 2 := by
  norm_num [TrainModel.accuracyScore]

example : TrainModel.scale_pos_weight [1, 0, 0] = 2 := by
  norm_num [TrainModel.scale_pos_weight, TrainModel.nPos, TrainModel.nNeg]

example : TrainModel.tradesAt [⟨true, true, 0.7⟩, ⟨false, true, 0.6⟩] 0.65 = 1 := by
  norm_num [TrainModel.tradesAt, List.filter_cons, TrainModel.selectedAt, TrainModel.probMax]

namespace TrainModel

/-! ## Helper lemmas -/

/-- A ratio of natural counts with numerator at most the denominator lies in
the unit interval (at denominator zero the numerator is zero too and the
rational division yields `0`). -/
lemma natCast_div_unit {a b : ℕ} (hab : a ≤ b) :
    0 ≤ (a : ℚ) / (b : ℚ) ∧ (a : ℚ) / (b : ℚ) ≤ 1 := by
  rcases Nat.eq_zero_or_pos b with hb | hb
  · subst hb
    simp
  · constructor
    · positivity
    · rw [div_le_one (by exact_mod_cast hb)]
      exact_mod_cast hab

lemma aucPair_nonneg (p q : ℚ) : 0 ≤ aucPair p q := by
  unfold aucPair; split_ifs <;> norm_num

lemma aucPair_le_one (p q : ℚ) : aucPair p q ≤ 1 := by
  unfold aucPair; split_ifs <;> norm_num

/-- Sum of the pair scores against all negatives is between `0` and the number
of negatives. -/
lemma aucInner_bounds (s : List Sample) (p : ℚ) :
    0 ≤ ((negScores s).map (fun q => aucPair p q)).sum ∧
      ((negScores s).map (fun q => aucPair p q)).sum ≤ ((negScores s).length : ℚ) := by
  constructor
  · apply List.sum_nonneg
    intro x hx
    obtain ⟨q, _, rfl⟩ := List.mem_map.mp hx
    exact aucPair_nonneg p q
  · calc ((negScores s).map (fun q => aucPair p q)).sum
        ≤ ((negScores s).map (fun q => aucPair p q)).length • (1 : ℚ) := by
          apply List.sum_le_card_nsmul
          intro x hx
          obtain ⟨q, _, rfl⟩ := List.mem_map.mp hx
          exact aucPair_le_one p q
      _ = ((negScores s).length : ℚ) := by
          simp [List.length_map]

end TrainModel

namespace TrainModel

/-! ## Theorems for the claims about `evaluate_model` -/

/-- Claim C7. The four entries of the confusion matrix partition the test set:
`TP + FP + TN + FN` equals the number of test samples, i.e. `len(y_test)`. -/
theorem confusion_matrix_sums_to_test_size (s : List Sample) :
    countTP s + countFP s + countTN s + countFN s = s.length := by
  induction s with
  | nil => rfl
  | cons x xs ih =>
    rcases x with ⟨l, p, q⟩
    cases l <;> cases p <;>
      simp only [countTP, countFP, countTN, countFN, List.filter, List.length_cons,
        Bool.not_true, Bool.not_false, Bool.true_and, Bool.false_and,
        Bool.and_true, Bool.and_false, Bool.and_self] at ih ⊢ <;>
      omega

/-- Claim C6. On every test set where evaluation succeeds (`roc_auc_score`
requires both classes to be present), each of accuracy, precision, recall,
F1 and AUC-ROC lies in `[0, 1]`; moreover precision, recall and F1 evaluate
to `0` (rather than failing) when their denominator is zero. -/
theorem metrics_in_unit_interval (s : List Sample)
    (hpos : ∃ x ∈ s, x.label = true) (hneg : ∃ x ∈ s, x.label = false) :
    (0 ≤ accuracyScore s ∧ accuracyScore s ≤ 1) ∧
    (0 ≤ precisionScore s ∧ precisionScore s ≤ 1) ∧
    (0 ≤ recallScore s ∧ recallScore s ≤ 1) ∧
    (0 ≤ f1Score s ∧ f1Score s ≤ 1) ∧
    (0 ≤ aucScore s ∧ aucScore s ≤ 1) ∧
    (countTP s + countFP s = 0 → precisionScore s = 0) ∧
    (countTP s + countFN s = 0 → recallScore s = 0) ∧
    (2 * countTP s + countFP s + countFN s = 0 → f1Score s = 0) := by
  refine ⟨?_, ?_, ?_, ?_, ?_, ?_, ?_, ?_⟩
  · exact natCast_div_unit (List.length_filter_le _ s)
  · unfold precisionScore
    split_ifs with h
    · norm_num
    · exact natCast_div_unit (Nat.le_add_right _ _)
  · unfold recallScore
    split_ifs with h
    · norm_num
    · exact natCast_div_unit (Nat.le_add_right _ _)
  · unfold f1Score
    split_ifs with h
    · norm_num
    · exact natCast_div_unit (by omega)
  · -- AUC bounds
    obtain ⟨xp, hxp, hxpl⟩ := hpos
    obtain ⟨xn, hxn, hxnl⟩ := hneg
    have hPmem : xp.proba ∈ posScores s :=
      List.mem_map_of_mem _ (List.mem_filter.mpr ⟨hxp, by simp [hxpl]⟩)
    have hNmem : xn.proba ∈ negScores s :=
      List.mem_map_of_mem _ (List.mem_filter.mpr ⟨hxn, by simp [hxnl]⟩)
    have hP : 0 < (posScores s).length := List.length_pos_of_mem hPmem
    have hN : 0 < (negScores s).length := List.length_pos_of_mem hNmem
    have hPQ : (0 : ℚ) < ((posScores s).length : ℚ) := by exact_mod_cast hP
    have hNQ : (0 : ℚ) < ((negScores s).length : ℚ) := by exact_mod_cast hN
    have hS0 : 0 ≤ ((posScores s).map
        (fun p => ((negScores s).map (fun q => aucPair p q)).sum)).sum := by
      apply List.sum_nonneg
      intro x hx
      obtain ⟨p, _, rfl⟩ := List.mem_map.mp hx
      exact (aucInner_bounds s p).1
    have hS1 : ((posScores s).map
        (fun p => ((negScores s).map (fun q => aucPair p q)).sum)).sum ≤
        ((posScores s).length : ℚ) * ((negScores s).length : ℚ) := by
      calc ((posScores s).map
            (fun p => ((negScores s).map (fun q => aucPair p q)).sum)).sum
          ≤ ((posScores s).map
            (fun p => ((negScores s).map (fun q => aucPair p q)).sum)).length •
              ((negScores s).length : ℚ) := by
            apply List.sum_le_card_nsmul
            intro x hx
            obtain ⟨p, _, rfl⟩ := List.mem_map.mp hx
            exact (aucInner_bounds s p).2
        _ = ((posScores s).length : ℚ) * ((negScores s).length : ℚ) := by
            simp [List.length_map, nsmul_eq_mul]
    constructor
    · exact div_nonneg hS0 (by positivity)
    · rw [aucScore, div_le_one (by positivity)]
      exact hS1
  · intro h; simp [precisionScore, h]
  · intro h; simp [recallScore, h]
  · intro h; simp [f1Score, h]

/-- Concrete two-sample test set used by the witnesses: one positive sample
predicted positive with probability `3/4`, one negative sample predicted
negative with probability `1/4`. -/
def sampleW : List Sample := [⟨true, true, 3 / 4⟩, ⟨false, false, 1 / 4⟩]

/-- Witness for `metrics_in_unit_interval` at the concrete test set
`sampleW`. -/
theorem metrics_in_unit_interval_witness :
    ((∃ x ∈ sampleW, x.label = true) ∧ (∃ x ∈ sampleW, x.label = false)) ∧
    ((0 ≤ accuracyScore sampleW ∧ accuracyScore sampleW ≤ 1) ∧
     (0 ≤ precisionScore sampleW ∧ precisionScore sampleW ≤ 1) ∧
     (0 ≤ recallScore sampleW ∧ recallScore sampleW ≤ 1) ∧
     (0 ≤ f1Score sampleW ∧ f1Score sampleW ≤ 1) ∧
     (0 ≤ aucScore sampleW ∧ aucScore sampleW ≤ 1) ∧
     (countTP sampleW + countFP sampleW = 0 → precisionScore sampleW = 0) ∧
     (countTP sampleW + countFN sampleW = 0 → recallScore sampleW = 0) ∧
     (2 * countTP sampleW + countFP sampleW + countFN sampleW = 0 →
       f1Score sampleW = 0)) := by
  have hpos : ∃ x ∈ sampleW, x.label = true := ⟨⟨true, true, 3 / 4⟩, by simp [sampleW], rfl⟩
  have hneg : ∃ x ∈ sampleW, x.label = false := ⟨⟨false, false, 1 / 4⟩, by simp [sampleW], rfl⟩
  exact ⟨⟨hpos, hneg⟩, metrics_in_unit_interval sampleW hpos hneg⟩

/-- Claim C10. In the simulated-trading loop, raising the confidence threshold
can only shrink the selection: for thresholds `t1 ≤ t2` from the fixed list,
every sample selected at `t2` is selected at `t1`, and both `trades` and
`wins` at `t2` are at most their values at `t1`. -/
theorem trading_threshold_monotone (s : List Sample) (t1 t2 : ℚ)
    (_ht1 : t1 ∈ tradingThresholds) (_ht2 : t2 ∈ tradingThresholds) (h12 : t1 ≤ t2) :
    (∀ x ∈ s.filter (selectedAt t2), x ∈ s.filter (selectedAt t1)) ∧
    tradesAt s t2 ≤ tradesAt s t1 ∧ winsAt s t2 ≤ winsAt s t1 := by
  have himp : ∀ x : Sample, selectedAt t2 x = true → selectedAt t1 x = true := by
    intro x hx
    simp only [selectedAt, decide_eq_true_eq] at hx ⊢
    exact le_trans h12 hx
  refine ⟨?_, ?_, ?_⟩
  · intro x hx
    rw [List.mem_filter] at hx ⊢
    exact ⟨hx.1, himp x hx.2⟩
  · unfold tradesAt
    rw [← List.countP_eq_length_filter, ← List.countP_eq_length_filter]
    exact List.countP_mono_left (fun x _ => himp x)
  · unfold winsAt
    rw [List.filter_filter, List.filter_filter,
      ← List.countP_eq_length_filter, ← List.countP_eq_length_filter]
    refine List.countP_mono_left (fun x _ hx => ?_)
    rw [Bool.and_eq_true] at hx ⊢
    exact ⟨hx.1, himp x hx.2⟩

/-- Witness for `trading_threshold_monotone` at the concrete test set
`sampleW` and the first two thresholds of the list. -/
theorem trading_threshold_monotone_witness :
    ((0.55 : ℚ) ∈ tradingThresholds ∧ (0.60 : ℚ) ∈ tradingThresholds ∧
      (0.55 : ℚ) ≤ 0.60) ∧
    ((∀ x ∈ sampleW.filter (selectedAt 0.60), x ∈ sampleW.filter (selectedAt 0.55)) ∧
      tradesAt sampleW 0.60 ≤ tradesAt sampleW 0.55 ∧
      winsAt sampleW 0.60 ≤ winsAt sampleW 0.55) := by
  have h1 : (0.55 : ℚ) ∈ tradingThresholds := by
    simp [tradingThresholds]
  have h2 : (0.60 : ℚ) ∈ tradingThresholds := by
    norm_num [tradingThresholds]
  have h12 : (0.55 : ℚ) ≤ 0.60 := by norm_num
  exact ⟨⟨h1, h2, h12⟩, trading_threshold_monotone sampleW 0.55 0.60 h1 h2 h12⟩

/-! ## The class-weight claim -/

/-- On binary labels, `y_train.sum()` equals the number of `1` entries. -/
lemma nPos_eq_countOnes {y : List ℚ} (hb : BinaryLabels y) :
    nPos y = (countOnes y : ℚ) := by
  induction y with
  | nil => rfl
  | cons v tl ih =>
    have hv := hb v (List.mem_cons_self v tl)
    have htl : BinaryLabels tl := fun x hx => hb x (List.mem_cons_of_mem v hx)
    rcases hv with rfl | rfl
    · rw [nPos, List.sum_cons, countOnes, List.filter_cons]
      norm_num
      exact ih htl
    · rw [nPos, List.sum_cons, countOnes, List.filter_cons]
      norm_num
      rw [← countOnes, ← nPos, ih htl]
      ring

/-- On binary labels, the `0` and `1` entries partition the vector. -/
lemma countOnes_add_countZeros {y : List ℚ} (hb : BinaryLabels y) :
    countOnes y + countZeros y = y.length := by
  induction y with
  | nil => rfl
  | cons v tl ih =>
    have hv := hb v (List.mem_cons_self v tl)
    have htl : BinaryLabels tl := fun x hx => hb x (List.mem_cons_of_mem v hx)
    have ih2 := ih htl
    rcases hv with rfl | rfl <;>
      simp only [countOnes, countZeros, List.filter_cons, List.length_cons] at ih2 ⊢ <;>
      norm_num <;> omega

/-- Claim C9. The class-weight computation of `train_xgboost` never divides by
zero: on a binary label vector, `scale_pos_weight` is the default `1.0` when
there are no positive labels, and otherwise equals the count of negative
labels divided by the (nonzero) count of positive labels. -/
theorem scale_pos_weight_no_div_by_zero (y : List ℚ) (hb : BinaryLabels y) :
    (countOnes y = 0 → scale_pos_weight y = 1) ∧
    (countOnes y ≠ 0 →
      (nPos y ≠ 0 ∧
        scale_pos_weight y = (countZeros y : ℚ) / (countOnes y : ℚ))) := by
  have hsum := nPos_eq_countOnes hb
  have hpart := countOnes_add_countZeros hb
  constructor
  · intro h0
    have hnot : ¬ 0 < nPos y := by
      rw [hsum, h0]
      norm_num
    rw [scale_pos_weight, if_neg hnot]
    norm_num
  · intro h0
    have hposQ : (0 : ℚ) < nPos y := by
      rw [hsum]
      exact_mod_cast Nat.pos_of_ne_zero h0
    refine ⟨ne_of_gt hposQ, ?_⟩
    rw [scale_pos_weight, if_pos hposQ, nNeg, hsum]
    have hlen : (y.length : ℚ) = (countOnes y : ℚ) + (countZeros y : ℚ) := by
      exact_mod_cast hpart.symm
    rw [hlen]
    ring_nf

/-- Witness for `scale_pos_weight_no_div_by_zero` on the label vector
`[1, 0, 0]`. -/
theorem scale_pos_weight_witness :
    BinaryLabels [1, 0, 0] ∧
    ((countOnes [1, 0, 0] = 0 → scale_pos_weight [1, 0, 0] = 1) ∧
     (countOnes [1, 0, 0] ≠ 0 →
       (nPos [1, 0, 0] ≠ 0 ∧
         scale_pos_weight [1, 0, 0] =
           (countZeros [1, 0, 0] : ℚ) / (countOnes [1, 0, 0] : ℚ)))) := by
  have hb : BinaryLabels [1, 0, 0] := by
    intro v hv
    simp only [List.mem_cons, List.not_mem_nil, or_false] at hv
    rcases hv with rfl | rfl | rfl
    · right; rfl
    · left; rfl
    · left; rfl
  exact ⟨hb, scale_pos_weight_no_div_by_zero [1, 0, 0] hb⟩

/-! ## Feature names

The fixed 28-entry `FEATURE_NAMES` list of the script. -/

/-- The `FEATURE_NAMES` list from the top of `trainModel.py`. -/
def FEATURE_NAMES : List String :=
  ["ptb_distance_pct", "rsi", "rsi_slope", "macd_histogram", "macd_line",
   "vwap_distance_pct", "vwap_slope", "ha_consecutive", "delta_1m_pct",
   "delta_3m_pct", "volume_ratio", "minutes_left", "rule_prob_up",
   "rule_confidence", "vwap_cross_count", "edge_best",
   "regime_trending", "regime_choppy", "regime_mean_rev", "regime_moderate",
   "session_asia", "session_europe", "session_us", "session_overlap", "session_off",
   "ha_color_green", "multi_tf_agree", "failed_vwap"]

/-! ## `normalize_data` and the normalization artifacts

`normalize_data(X_train, X_test)` fits a scikit-learn `StandardScaler` on
`X_train` (via `fit_transform`) and only applies the already-fitted transform
to `X_test`.  The fitted statistics are `scaler.mean_` (per-column arithmetic
mean) and `scaler.scale_` (per-column population standard deviation
`sqrt(var)`, where — per the documented `StandardScaler` semantics — a zero
standard deviation is replaced by `1.0`, since unit variance cannot be
achieved for a constant feature).

`main` then writes `normalization.json` with `means = scaler.mean_.tolist()`
and `stds = scaler.scale_.tolist()`, plus the feature names, and
`norm_browser.json` with exactly the `means` and `stds` of that dict. -/

/-- The `j`-th feature column of a row-major matrix. -/
def column (X : List (List ℚ)) (j : ℕ) : List ℚ :=
  X.map (fun r => r.getD j 0)

/-- The number of feature columns of a row-major matrix. -/
def nFeatures (X : List (List ℚ)) : ℕ := (X.headD []).length

/-- Arithmetic mean of a column (`np.mean`). -/
def colMean (c : List ℚ) : ℚ := c.sum / (c.length : ℚ)

/-- Population variance of a column (`np.var`, `ddof=0`). -/
def colVar (c : List ℚ) : ℚ :=
  ((c.map (fun x => (x - colMean c) ^ 2)).sum) / (c.length : ℚ)

/-- Standard deviation of a column: `np.sqrt(var)`. -/
noncomputable def colStd (c : List ℚ) : ℝ := Real.sqrt ((colVar c : ℚ) : ℝ)

/-- scikit-learn's guard on the fitted scale: a scale of exactly `0`
(constant feature) is replaced by `1` so that dividing by it is a no-op. -/
noncomputable def handleZerosInScale (s : ℝ) : ℝ := if s = 0 then 1 else s

/-- The fitted statistics of a `StandardScaler`: `mean_` and `scale_`. -/
structure ScalerStats where
  mean : List ℚ
  scale : List ℝ

/-- Embeds `StandardScaler().fit(X)`: per-column arithmetic means and guarded
standard deviations, one entry per feature column. -/
noncomputable def standardScalerFit (X : List (List ℚ)) : ScalerStats where
  mean := (List.range (nFeatures X)).map (fun j => colMean (column X j))
  scale := (List.range (nFeatures X)).map (fun j => handleZerosInScale (colStd (column X j)))

/-- The scaler produced by `normalize_data(X_train, X_test)`: fitted by
`scaler.fit_transform(X_train)`, so on the training split only; the
`X_test` argument is only transformed, never fitted on. -/
noncomputable def normalize_data_scaler (Xtrain _Xtest : List (List ℚ)) : ScalerStats :=
  standardScalerFit Xtrain

/-- Contents of `normalization.json` as written by `main`. -/
structure NormalizationJson where
  means : List ℚ
  stds : List ℝ
  feature_names : List String

/-- The `norm_data` dict as built in `main` from the fitted scaler. -/
noncomputable def normalizationJson (sc : ScalerStats) : NormalizationJson where
  means := sc.mean
  stds := sc.scale
  feature_names := FEATURE_NAMES

/-- Contents of the compact `norm_browser.json` as written by `main`:
exactly the `means` and `stds` entries of `norm_data`. -/
structure NormBrowserJson where
  means : List ℚ
  stds : List ℝ

/-- The browser normalization dict built in `main`. -/
noncomputable def normBrowserJson (nd : NormalizationJson) : NormBrowserJson where
  means := nd.means
  stds := nd.stds

/-- The per-feature standard deviations exactly as the specification words
them ("per-feature mean/standard-deviation arrays"), with no zero-variance
guard.  Used to compare the artifact against the spec's wording. -/
noncomputable def specPerFeatureStds (X : List (List ℚ)) : List ℝ :=
  (List.range (nFeatures X)).map (fun j => colStd (column X j))

/-- Claim C1, counterexample. On the training matrix `[[0], [0]]` — a single
constant feature column — the `stds` array written to `normalization.json`
is `[1]` (the scaler's zero-variance guard), while the per-feature standard
deviation of the training matrix is `[0]`; so the artifact does not contain
the per-feature standard deviations as claimed. -/
theorem normalization_stds_zero_variance_counterexample :
    (normalizationJson (normalize_data_scaler [[0], [0]] [[0]])).stds ≠
        specPerFeatureStds [[0], [0]] ∧
    (normalizationJson (normalize_data_scaler [[0], [0]] [[0]])).stds = [1] ∧
    specPerFeatureStds [[0], [0]] = [0] := by
  have hcol : column [[(0 : ℚ)], [0]] 0 = [0, 0] := rfl
  have hvar : colVar [(0 : ℚ), 0] = 0 := by
    norm_num [colVar, colMean]
  have hstd : colStd (column [[(0 : ℚ)], [0]] 0) = 0 := by
    rw [hcol, colStd, hvar]
    norm_num
  have hrange : List.range 1 = [0] := rfl
  have hL : (normalizationJson (normalize_data_scaler [[0], [0]] [[0]])).stds = [1] := by
    simp [normalizationJson, normalize_data_scaler, standardScalerFit, nFeatures,
      hrange, handleZerosInScale, hstd]
  have hR : specPerFeatureStds [[(0 : ℚ)], [0]] = [0] := by
    simp [specPerFeatureStds, nFeatures, hrange, hstd]
  refine ⟨?_, hL, hR⟩
  rw [hL, hR]
  simp

/-- Claim C1, amended. The `means` array of `normalization.json` holds the
per-feature arithmetic mean of the training matrix; the `stds` array holds
the per-feature standard deviation of the training matrix, except that a
zero standard deviation (constant feature) is recorded as `1.0` — the
scaler's zero-variance guard; the statistics are fitted from the training
split only (the scaler is the same whatever the test split is);
`norm_browser.json` contains exactly the same `means` and `stds` arrays;
and both arrays have one entry per feature column. -/
theorem normalization_artifact_contents (Xtrain Xtest : List (List ℚ)) :
    (normalizationJson (normalize_data_scaler Xtrain Xtest)).means =
        (List.range (nFeatures Xtrain)).map (fun j => colMean (column Xtrain j)) ∧
    (normalizationJson (normalize_data_scaler Xtrain Xtest)).stds =
        (List.range (nFeatures Xtrain)).map (fun j =>
          if colStd (column Xtrain j) = 0 then 1 else colStd (column Xtrain j)) ∧
    (∀ X2 : List (List ℚ),
        normalize_data_scaler Xtrain X2 = normalize_data_scaler Xtrain Xtest) ∧
    (normBrowserJson (normalizationJson (normalize_data_scaler Xtrain Xtest))).means =
        (normalizationJson (normalize_data_scaler Xtrain Xtest)).means ∧
    (normBrowserJson (normalizationJson (normalize_data_scaler Xtrain Xtest))).stds =
        (normalizationJson (normalize_data_scaler Xtrain Xtest)).stds ∧
    (normalizationJson (normalize_data_scaler Xtrain Xtest)).means.length =
        nFeatures Xtrain ∧
    (normalizationJson (normalize_data_scaler Xtrain Xtest)).stds.length =
        nFeatures Xtrain := by
  refine ⟨rfl, ?_, fun _ => rfl, rfl, rfl, ?_, ?_⟩
  · simp only [normalizationJson, normalize_data_scaler, standardScalerFit,
      handleZerosInScale]
  · simp [normalizationJson, normalize_data_scaler, standardScalerFit]
  · simp [normalizationJson, normalize_data_scaler, standardScalerFit]

/-! ## `export_xgboost_to_json`

The trees come from `model.get_booster().get_dump(dump_format='json')` —
owned by the library, hence kept abstract here (a type parameter).  The
remainder of the export dict is built in-script. The `exported_at`
wall-clock timestamp is not modelled. -/

/-- The hyperparameters of the fitted model that the export reads via
`model.get_params()`.  `train_xgboost` sets `learning_rate=0.05` and never
sets `base_score`, which therefore defaults to `None`. -/
structure ModelParams where
  base_score : Option ℚ
  learning_rate : ℚ

/-- Python's `x or d` on an optional number: both `None` and `0` fall back
to the default (used as `model.get_params().get('base_score') or 0.5`). -/
def pyOrDefault (x : Option ℚ) (d : ℚ) : ℚ :=
  match x with
  | none => d
  | some v => if v = 0 then d else v

/-- The dict written to `xgboost_model.json`. -/
structure ModelExport (τ : Type) where
  mtype : String
  version : ℕ
  num_trees : ℕ
  num_features : ℕ
  base_score : ℚ
  learning_rate : ℚ
  trees : List τ
  feature_names : List String

/-- Embeds `export_xgboost_to_json(model, output_path)`: the export dict built from
the parsed tree dump `trees`, the model's parameters and its input width. -/
def export_xgboost_to_json {τ : Type} (trees : List τ) (p : ModelParams)
    (numFeaturesIn : ℕ) : ModelExport τ where
  mtype := "xgboost"
  version := 1
  num_trees := trees.length
  num_features := numFeaturesIn
  base_score := pyOrDefault p.base_score (1 / 2)
  learning_rate := p.learning_rate
  trees := trees
  feature_names := FEATURE_NAMES

/-- The parameters of the model trained by `train_xgboost` that the export
reads: `learning_rate=0.05` from the constructor, `base_score` left unset. -/
def trainedModelParams : ModelParams where
  base_score := none
  learning_rate := 0.05

/-- Claim C5. The export written to `xgboost_model.json` carries the tree
structures under `trees`, a base score (`0.5`, since `train_xgboost` leaves
`base_score` unset) under `base_score`, the learning rate `0.05` under
`learning_rate`, the 28 feature names under `feature_names`, and its
`num_trees` field equals the length of its `trees` list. -/
theorem xgboost_export_contents {τ : Type} (trees : List τ) (numFeaturesIn : ℕ) :
    (export_xgboost_to_json trees trainedModelParams numFeaturesIn).trees = trees ∧
    (export_xgboost_to_json trees trainedModelParams numFeaturesIn).num_trees =
        (export_xgboost_to_json trees trainedModelParams numFeaturesIn).trees.length ∧
    (export_xgboost_to_json trees trainedModelParams numFeaturesIn).base_score = 1 / 2 ∧
    (export_xgboost_to_json trees trainedModelParams numFeaturesIn).learning_rate = 0.05 ∧
    (export_xgboost_to_json trees trainedModelParams numFeaturesIn).feature_names =
        FEATURE_NAMES ∧
    FEATURE_NAMES.length = 28 := by
  refine ⟨rfl, rfl, rfl, rfl, rfl, rfl⟩

/-! ## The top-level control flow of the script

`python trainModel.py ...` first runs the module-level import guard
(`try: import xgboost ... except ImportError: print(...); sys.exit(1)`) and
then `main()`, which checks `len(sys.argv) < 2` and otherwise runs the
pipeline with no try/except anywhere: any exception raised by a stage
escapes the process.

The library-backed stages are oracles in a `World`; `runScript` produces
the process outcome together with the trace of dataset loads, stage calls
and artifact writes (the decorative progress prints inside the pipeline are
not modelled; the two prints of the exit paths are). -/

/-- An exception as raised by a pipeline stage (`FileNotFoundError`,
`json.JSONDecodeError`, `KeyError` for a missing dataset key, a shape
mismatch `ValueError`, or any library-internal error). -/
inductive PyErr where
  | fileNotFound (path : String)
  | jsonDecode (msg : String)
  | keyMissing (key : String)
  | shapeMismatch (msg : String)
  | libraryError (msg : String)
deriving DecidableEq, Repr

/-- The dataset dict returned by `load_dataset`. -/
structure Dataset where
  trainFeatures : List (List ℚ)
  trainLabels : List ℚ
  testFeatures : List (List ℚ)
  testLabels : List ℚ
deriving DecidableEq, Repr

/-- Opaque handle to the normalized arrays and fitted scaler returned by
`normalize_data`. -/
structure NormalizedData where
  tag : ℕ
deriving DecidableEq, Repr

/-- Opaque handle to the fitted `XGBClassifier`. -/
structure FittedModel where
  tag : ℕ
deriving DecidableEq, Repr

/-- Opaque handle to the metrics dict returned by `evaluate_model`. -/
structure EvalReport where
  tag : ℕ
deriving DecidableEq, Repr

/-- Opaque handle to the `cross_val_score` result. -/
structure CvScores where
  tag : ℕ
deriving DecidableEq, Repr

/-- Opaque handle to one parsed tree of `booster.get_dump`. -/
structure TreeJson where
  tag : ℕ
deriving DecidableEq, Repr

/-- The environment of one process run: whether the imports succeed,
`sys.argv`, and the outcome of each library-backed pipeline stage. -/
structure World where
  importsOk : Bool
  argv : List String
  load : String → Except PyErr Dataset
  normalize : Dataset → Except PyErr NormalizedData
  train : NormalizedData → Except PyErr FittedModel
  evalModel : FittedModel → NormalizedData → Except PyErr EvalReport
  crossVal : NormalizedData → Except PyErr CvScores
  dumpTrees : FittedModel → Except PyErr (List TreeJson)

/-- An observable action of the process. -/
inductive Ev where
  | printMsg (s : String)
  | callLoad (path : String)
  | callNormalize
  | callTrain
  | callEvaluate
  | callCrossVal
  | callDumpTrees
  | writeFile (name : String)
deriving DecidableEq, Repr

/-- How the process ends. -/
inductive Outcome where
  | exited (code : ℕ)
  | raised (e : PyErr)
  | completed
deriving DecidableEq, Repr

/-- The usage line printed when the positional argument is missing. -/
def usageMsg : String := "Usage: python backtest/ml/trainModel.py <features-file.json>"

/-- The message printed by the import guard. -/
def missingPackageMsg : String := "Missing package"

/-- One run of `python trainModel.py`: the import guard, the `argv` check,
then the six pipeline stages in source order, each stage's failure
propagating to the toplevel, and the four artifact writes at the end
(`export_xgboost_to_json` writes `xgboost_model.json`; `main` then writes
`normalization.json`, `norm_browser.json` and `training_report.json`). -/
def featuresArg (w : World) : String := w.argv.getD 1 ""

def runScript (w : World) : Outcome × List Ev :=
  if !w.importsOk then
    (.exited 1, [.printMsg missingPackageMsg])
  else if w.argv.length < 2 then
    (.exited 1, [.printMsg usageMsg])
  else
    let path := featuresArg w
    match w.load path with
    | .error e => (.raised e, [.callLoad path])
    | .ok ds =>
      match w.normalize ds with
      | .error e => (.raised e, [.callLoad path, .callNormalize])
      | .ok nd =>
        match w.train nd with
        | .error e => (.raised e, [.callLoad path, .callNormalize, .callTrain])
        | .ok m =>
          match w.evalModel m nd with
          | .error e =>
            (.raised e, [.callLoad path, .callNormalize, .callTrain, .callEvaluate])
          | .ok _rep =>
            match w.crossVal nd with
            | .error e =>
              (.raised e,
               [.callLoad path, .callNormalize, .callTrain, .callEvaluate, .callCrossVal])
            | .ok _cv =>
              match w.dumpTrees m with
              | .error e =>
                (.raised e,
                 [.callLoad path, .callNormalize, .callTrain, .callEvaluate,
                  .callCrossVal, .callDumpTrees])
              | .ok _trees =>
                (.completed,
                 [.callLoad path, .callNormalize, .callTrain, .callEvaluate,
                  .callCrossVal, .callDumpTrees,
                  .writeFile "xgboost_model.json", .writeFile "normalization.json",
                  .writeFile "norm_browser.json", .writeFile "training_report.json"])

/-- Whether an event loads a dataset. -/
def isLoadEv : Ev → Bool
  | .callLoad _ => true
  | _ => false

/-- Whether an event writes an output file. -/
def isWriteEv : Ev → Bool
  | .writeFile _ => true
  | _ => false

/-- Claim C2. With the required packages absent the process prints an error
and exits with status 1; with packages present but no positional argument it
prints the usage line and exits with status 1; in both cases the trace holds
no dataset load and no file write. -/
theorem exit_paths (w : World) :
    (w.importsOk = false →
      runScript w = (.exited 1, [.printMsg missingPackageMsg]) ∧
      ∀ ev ∈ (runScript w).2, isLoadEv ev = false ∧ isWriteEv ev = false) ∧
    (w.importsOk = true → w.argv.length < 2 →
      runScript w = (.exited 1, [.printMsg usageMsg]) ∧
      ∀ ev ∈ (runScript w).2, isLoadEv ev = false ∧ isWriteEv ev = false) := by
  constructor
  · intro h
    have hr : runScript w = (.exited 1, [.printMsg missingPackageMsg]) := by
      simp [runScript, h]
    refine ⟨hr, ?_⟩
    rw [hr]
    intro ev hev
    simp only [List.mem_singleton] at hev
    subst hev
    exact ⟨rfl, rfl⟩
  · intro h1 h2
    have hr : runScript w = (.exited 1, [.printMsg usageMsg]) := by
      simp [runScript, h1, h2]
    refine ⟨hr, ?_⟩
    rw [hr]
    intro ev hev
    simp only [List.mem_singleton] at hev
    subst hev
    exact ⟨rfl, rfl⟩

/-- Claim C3. Past the two handled exit paths, a failure of any pipeline stage
— loading, normalizing, training, evaluating, cross-validating, or dumping
the trees for export — propagates out of the process as that very exception:
the run ends in `raised e`, the trace shows each stage called at most once
(no retry or recovery), and no artifact write follows a failure. -/
theorem failures_propagate_uncaught (w : World)
    (h1 : w.importsOk = true) (h2 : 2 ≤ w.argv.length) :
    (∀ e, w.load (featuresArg w) = .error e →
        runScript w = (.raised e, [.callLoad (featuresArg w)])) ∧
    (∀ ds e, w.load (featuresArg w) = .ok ds →
        w.normalize ds = .error e →
        runScript w = (.raised e, [.callLoad (featuresArg w), .callNormalize])) ∧
    (∀ ds nd e, w.load (featuresArg w) = .ok ds →
        w.normalize ds = .ok nd → w.train nd = .error e →
        runScript w = (.raised e,
          [.callLoad (featuresArg w), .callNormalize, .callTrain])) ∧
    (∀ ds nd m e, w.load (featuresArg w) = .ok ds →
        w.normalize ds = .ok nd → w.train nd = .ok m →
        w.evalModel m nd = .error e →
        runScript w = (.raised e,
          [.callLoad (featuresArg w), .callNormalize, .callTrain, .callEvaluate])) ∧
    (∀ ds nd m rep e, w.load (featuresArg w) = .ok ds →
        w.normalize ds = .ok nd → w.train nd = .ok m →
        w.evalModel m nd = .ok rep → w.crossVal nd = .error e →
        runScript w = (.raised e,
          [.callLoad (featuresArg w), .callNormalize, .callTrain, .callEvaluate,
           .callCrossVal])) ∧
    (∀ ds nd m rep cv e, w.load (featuresArg w) = .ok ds →
        w.normalize ds = .ok nd → w.train nd = .ok m →
        w.evalModel m nd = .ok rep → w.crossVal nd = .ok cv →
        w.dumpTrees m = .error e →
        runScript w = (.raised e,
          [.callLoad (featuresArg w), .callNormalize, .callTrain, .callEvaluate,
           .callCrossVal, .callDumpTrees])) := by
  have hno : ¬ w.argv.length < 2 := Nat.not_lt.mpr h2
  refine ⟨?_, ?_, ?_, ?_, ?_, ?_⟩
  · intro e he
    simp [runScript, h1, hno, he]
  · intro ds e hds he
    simp [runScript, h1, hno, hds, he]
  · intro ds nd e hds hnd he
    simp [runScript, h1, hno, hds, hnd, he]
  · intro ds nd m e hds hnd hm he
    simp [runScript, h1, hno, hds, hnd, hm, he]
  · intro ds nd m rep e hds hnd hm hrep he
    simp [runScript, h1, hno, hds, hnd, hm, hrep, he]
  · intro ds nd m rep cv e hds hnd hm hrep hcv he
    simp [runScript, h1, hno, hds, hnd, hm, hrep, hcv, he]

/-- Claim C4. On every successful run the trace is exactly: load, normalize,
train, evaluate, cross-validate, dump trees, and only then the four artifact
writes in source order — so no stage is skipped, the stages run in this
order, and no artifact is written before evaluation and cross-validation
complete. -/
theorem pipeline_stage_order (w : World) (ds : Dataset) (nd : NormalizedData)
    (m : FittedModel) (rep : EvalReport) (cv : CvScores) (trees : List TreeJson)
    (h1 : w.importsOk = true) (h2 : 2 ≤ w.argv.length)
    (hl : w.load (featuresArg w) = .ok ds)
    (hn : w.normalize ds = .ok nd)
    (ht : w.train nd = .ok m)
    (he : w.evalModel m nd = .ok rep)
    (hc : w.crossVal nd = .ok cv)
    (hd : w.dumpTrees m = .ok trees) :
    runScript w = (.completed,
      [.callLoad (featuresArg w), .callNormalize, .callTrain, .callEvaluate,
       .callCrossVal, .callDumpTrees,
       .writeFile "xgboost_model.json", .writeFile "normalization.json",
       .writeFile "norm_browser.json", .writeFile "training_report.json"]) := by
  have hno : ¬ w.argv.length < 2 := Nat.not_lt.mpr h2
  simp [runScript, h1, hno, hl, hn, ht, he, hc, hd]

/-! ### Concrete worlds for the witnesses -/

/-- A small concrete dataset. -/
def datasetW : Dataset := ⟨[[1], [0]], [1, 0], [[1]], [1]⟩

/-- A world where every stage succeeds. -/
def wOk : World where
  importsOk := true
  argv := ["trainModel.py", "features.json"]
  load := fun _ => .ok datasetW
  normalize := fun _ => .ok ⟨0⟩
  train := fun _ => .ok ⟨0⟩
  evalModel := fun _ _ => .ok ⟨0⟩
  crossVal := fun _ => .ok ⟨0⟩
  dumpTrees := fun _ => .ok [⟨0⟩]

/-- World `wOk` with the required packages absent. -/
def wNoImports : World := { wOk with importsOk := false }

/-- World `wOk` invoked with no positional argument. -/
def wNoArg : World := { wOk with argv := ["trainModel.py"] }

/-- World `wOk` with a nonexistent input path. -/
def wLoadFail : World :=
  { wOk with load := fun p => .error (.fileNotFound p) }

/-- Witness for `exit_paths`: the missing-package world and the
missing-argument world. -/
theorem exit_paths_witness :
    (wNoImports.importsOk = false ∧
      runScript wNoImports = (.exited 1, [.printMsg missingPackageMsg])) ∧
    (wNoArg.importsOk = true ∧ wNoArg.argv.length < 2 ∧
      runScript wNoArg = (.exited 1, [.printMsg usageMsg])) := by
  have hlen : wNoArg.argv.length < 2 := by decide
  exact ⟨⟨rfl, ((exit_paths wNoImports).1 rfl).1⟩,
    ⟨rfl, hlen, ((exit_paths wNoArg).2 rfl hlen).1⟩⟩

/-- Witness for `failures_propagate_uncaught`: a nonexistent input path. -/
theorem failures_propagate_witness :
    wLoadFail.importsOk = true ∧ 2 ≤ wLoadFail.argv.length ∧
    wLoadFail.load (featuresArg wLoadFail) =
      .error (.fileNotFound "features.json") ∧
    runScript wLoadFail =
      (.raised (.fileNotFound "features.json"), [.callLoad "features.json"]) := by
  have h2 : 2 ≤ wLoadFail.argv.length := by decide
  have hl : wLoadFail.load (featuresArg wLoadFail) =
      .error (.fileNotFound "features.json") := rfl
  exact ⟨rfl, h2, hl,
    (failures_propagate_uncaught wLoadFail rfl h2).1 (.fileNotFound "features.json") hl⟩

/-- Witness for `pipeline_stage_order`: the all-successful world. -/
theorem pipeline_stage_order_witness :
    wOk.importsOk = true ∧ 2 ≤ wOk.argv.length ∧
    runScript wOk = (.completed,
      [.callLoad "features.json", .callNormalize, .callTrain, .callEvaluate,
       .callCrossVal, .callDumpTrees,
       .writeFile "xgboost_model.json", .writeFile "normalization.json",
       .writeFile "norm_browser.json", .writeFile "training_report.json"]) := by
  have h2 : 2 ≤ wOk.argv.length := by decide
  exact ⟨rfl, h2,
    pipeline_stage_order wOk datasetW ⟨0⟩ ⟨0⟩ ⟨0⟩ ⟨0⟩ [⟨0⟩]
      rfl h2 rfl rfl rfl rfl rfl rfl⟩

end TrainModel
